import Mathlib

/-!
Shallow embedding of the Intel 8080 (KR580VM80A) CPU core from `i8080.js`
(svofski/i8080-js).  The mutable `I8080` object becomes a `CPU` record that is
threaded through pure functions; every function below is translated from the
JavaScript method of the same name, and the 256-entry handler table becomes the
`dispatch` if-chain whose branch conditions list exactly the opcodes the source
assigns to each shared handler closure.

Conventions of the translation:
* JavaScript numbers holding bytes/words are `Nat`.  A JS bit-mask by an
  all-ones constant (`x & 0xff`, `x & 0xffff`) is written `x % 0x100` /
  `x % 0x10000`, which is the same function on the values that occur; masks
  with scattered bits (`x & 0x88`, `x & 0x38`, ...) stay bitwise (`&&&`).
* JS subtraction can go negative before the mask; those spots go through
  `wrap8` / `wrap16`, which compute the two's-complement wrap on `Int`
  exactly as `(x) & 0xff` / `(x) & 0xffff` do in JS for the values involved.
* JS truthiness of the 0/1 table entries is `truthy`; the five flags, `iff`
  and the JS booleans are `Bool`.
* The memory back-end (`Memory` in the harness) is a total function
  `mem : Nat -> Nat`; the CPU masks addresses and data exactly as
  `memory_read_byte` / `memory_write_byte` do in the source.  The
  `stack_request` argument only tags bus traffic for the back-end and has no
  effect on the state, so it is dropped.
* The I/O back-end's observable calls (`interrupt`, `output`) are recorded in
  an `events` trace; `input` is a function supplied in the state (`io_input`).
-/

inductive IOEv where
  | interrupt (enabled : Bool)
  | output (port : Nat) (value : Nat)
deriving DecidableEq, Repr

structure CPU where
  pc : Nat
  sp : Nat
  regs : Nat → Nat    -- b, c, d, e, h, l, m, a = indices 0..7
  sf : Bool
  zf : Bool
  hf : Bool
  pf : Bool
  cf : Bool
  iff : Bool
  iff_pending : Nat
  cpu_cycles : Nat
  vcycles : Nat
  last_opcode : Nat
  mem : Nat → Nat
  io_input : Nat → Nat
  events : List IOEv

/-- JS `x & 0xff` applied to a possibly negative 32-bit integer value. -/
def wrap8 (x : Int) : Nat := (x % 0x100).toNat

/-- JS `x & 0xffff` applied to a possibly negative 32-bit integer value. -/
def wrap16 (x : Int) : Nat := (x % 0x10000).toNat

/-- JS truthiness of a number used as a boolean. -/
def truthy (n : Nat) : Bool := n != 0

/-- `I8080.prototype.parity_table` (1 = even number of set bits). -/
def parity_table : List Nat :=
  [ 1, 0, 0, 1, 0, 1, 1, 0, 0, 1, 1, 0, 1, 0, 0, 1,
    0, 1, 1, 0, 1, 0, 0, 1, 1, 0, 0, 1, 0, 1, 1, 0,
    0, 1, 1, 0, 1, 0, 0, 1, 1, 0, 0, 1, 0, 1, 1, 0,
    1, 0, 0, 1, 0, 1, 1, 0, 0, 1, 1, 0, 1, 0, 0, 1,
    0, 1, 1, 0, 1, 0, 0, 1, 1, 0, 0, 1, 0, 1, 1, 0,
    1, 0, 0, 1, 0, 1, 1, 0, 0, 1, 1, 0, 1, 0, 0, 1,
    1, 0, 0, 1, 0, 1, 1, 0, 0, 1, 1, 0, 1, 0, 0, 1,
    0, 1, 1, 0, 1, 0, 0, 1, 1, 0, 0, 1, 0, 1, 1, 0,
    0, 1, 1, 0, 1, 0, 0, 1, 1, 0, 0, 1, 0, 1, 1, 0,
    1, 0, 0, 1, 0, 1, 1, 0, 0, 1, 1, 0, 1, 0, 0, 1,
    1, 0, 0, 1, 0, 1, 1, 0, 0, 1, 1, 0, 1, 0, 0, 1,
    0, 1, 1, 0, 1, 0, 0, 1, 1, 0, 0, 1, 0, 1, 1, 0,
    1, 0, 0, 1, 0, 1, 1, 0, 0, 1, 1, 0, 1, 0, 0, 1,
    0, 1, 1, 0, 1, 0, 0, 1, 1, 0, 0, 1, 0, 1, 1, 0,
    0, 1, 1, 0, 1, 0, 0, 1, 1, 0, 0, 1, 0, 1, 1, 0,
    1, 0, 0, 1, 0, 1, 1, 0, 0, 1, 1, 0, 1, 0, 0, 1 ]

/-- `I8080.prototype.half_carry_table`. -/
def half_carry_table : List Nat := [ 0, 0, 1, 0, 1, 0, 1, 1 ]

/-- `I8080.prototype.sub_half_carry_table`. -/
def sub_half_carry_table : List Nat := [ 0, 1, 1, 1, 0, 0, 0, 1 ]

/-- `I8080.prototype.memory_read_byte`: masks the address to 16 bits and the
data to 8 bits (the harness `Memory` also masks the address, same result). -/
def memory_read_byte (s : CPU) (addr : Nat) : Nat :=
  s.mem (addr % 0x10000) % 0x100

/-- `I8080.prototype.memory_write_byte`. -/
def memory_write_byte (s : CPU) (addr w8 : Nat) : CPU :=
  { s with mem := fun a => if a = addr % 0x10000 then w8 % 0x100 else s.mem a }

/-- `I8080.prototype.memory_read_word`: little-endian,
`lo | (hi << 8)` in the source. -/
def memory_read_word (s : CPU) (addr : Nat) : Nat :=
  memory_read_byte s addr ||| (memory_read_byte s (addr + 1) <<< 8)

/-- `I8080.prototype.memory_write_word`: writes `w16 & 0xff` at `addr` and
`w16 >> 8` at `addr + 1`. -/
def memory_write_word (s : CPU) (addr w16 : Nat) : CPU :=
  memory_write_byte (memory_write_byte s addr (w16 % 0x100)) (addr + 1) (w16 >>> 8)

/-- `I8080.prototype.rp`: 16-bit pair read, `r` is 0 (bc), 2 (de), 4 (hl),
6 (sp). -/
def rp (s : CPU) (r : Nat) : Nat :=
  if r ≠ 6 then (s.regs r <<< 8) ||| s.regs (r + 1) else s.sp

/-- `I8080.prototype.hl`. -/
def hl (s : CPU) : Nat := rp s 4

/-- `I8080.prototype.reg`: register read; index 6 dereferences memory at HL. -/
def reg (s : CPU) (r : Nat) : Nat :=
  if r ≠ 6 then s.regs r else memory_read_byte s (hl s)

/-- `I8080.prototype.set_reg`. -/
def set_reg (s : CPU) (r w8 : Nat) : CPU :=
  if r ≠ 6 then { s with regs := fun i => if i = r then w8 % 0x100 else s.regs i }
  else memory_write_byte s (hl s) (w8 % 0x100)

/-- `I8080.prototype.set_rp`. -/
def set_rp (s : CPU) (r w16 : Nat) : CPU :=
  if r ≠ 6 then set_reg (set_reg s r (w16 >>> 8)) (r + 1) (w16 % 0x100)
  else { s with sp := w16 }

/-- `I8080.prototype.a` (accumulator read). -/
def acc (s : CPU) : Nat := reg s 7

/-- `I8080.prototype.next_pc_byte`: returns the fetched byte and the state
with PC advanced. -/
def next_pc_byte (s : CPU) : Nat × CPU :=
  (memory_read_byte s s.pc, { s with pc := (s.pc + 1) % 0x10000 })

/-- `I8080.prototype.next_pc_word`: `lo | (hi << 8)`. -/
def next_pc_word (s : CPU) : Nat × CPU :=
  let lo := (next_pc_byte s).1
  let s1 := (next_pc_byte s).2
  let hi := (next_pc_byte s1).1
  let s2 := (next_pc_byte s1).2
  (lo ||| (hi <<< 8), s2)

/-- `I8080.prototype.inr`. -/
def inr (s : CPU) (r : Nat) : CPU :=
  let v := (reg s r + 1) % 0x100
  let s1 := set_reg s r v
  { s1 with
      sf := v &&& 0x80 != 0
      zf := v == 0
      hf := v &&& 0x0f == 0
      pf := truthy (parity_table.getD v 0) }

/-- `I8080.prototype.dcr`; `(v - 1) & 0xff` wraps through two's complement. -/
def dcr (s : CPU) (r : Nat) : CPU :=
  let v := wrap8 ((reg s r : Int) - 1)
  let s1 := set_reg s r v
  { s1 with
      sf := v &&& 0x80 != 0
      zf := v == 0
      hf := !(v &&& 0x0f == 0x0f)
      pf := truthy (parity_table.getD v 0) }

/-- `I8080.prototype.add_im8`: shared ADD/ADC/ADI/ACI core. -/
def add_im8 (s : CPU) (v carry : Nat) : CPU :=
  let a0 := acc s
  let w16 := a0 + v + carry
  let index := ((a0 &&& 0x88) >>> 1) ||| ((v &&& 0x88) >>> 2) ||| ((w16 &&& 0x88) >>> 3)
  let a1 := w16 % 0x100
  let s1 := { s with
      sf := a1 &&& 0x80 != 0
      zf := a1 == 0
      hf := truthy (half_carry_table.getD (index &&& 0x7) 0)
      pf := truthy (parity_table.getD a1 0)
      cf := w16 &&& 0x100 != 0 }
  set_reg s1 7 a1

/-- `I8080.prototype.add`. -/
def add (s : CPU) (r carry : Nat) : CPU := add_im8 s (reg s r) carry

/-- `I8080.prototype.sub_im8`: `(a - v - carry) & 0xffff` wraps through two's
complement. -/
def sub_im8 (s : CPU) (v carry : Nat) : CPU :=
  let a0 := acc s
  let w16 := wrap16 ((a0 : Int) - v - carry)
  let index := ((a0 &&& 0x88) >>> 1) ||| ((v &&& 0x88) >>> 2) ||| ((w16 &&& 0x88) >>> 3)
  let a1 := w16 % 0x100
  let s1 := { s with
      sf := a1 &&& 0x80 != 0
      zf := a1 == 0
      hf := !truthy (sub_half_carry_table.getD (index &&& 0x7) 0)
      pf := truthy (parity_table.getD a1 0)
      cf := w16 &&& 0x100 != 0 }
  set_reg s1 7 a1

/-- `I8080.prototype.sub`. -/
def sub (s : CPU) (r carry : Nat) : CPU := sub_im8 s (reg s r) carry

/-- `I8080.prototype.cmp_im8`: SUB with the accumulator restored afterwards. -/
def cmp_im8 (s : CPU) (v : Nat) : CPU :=
  let a0 := acc s
  let s1 := sub_im8 s v 0
  set_reg s1 7 a0

/-- `I8080.prototype.cmp` (named `cmpr` because `cmp` is taken in Mathlib). -/
def cmpr (s : CPU) (r : Nat) : CPU := cmp_im8 s (reg s r)

/-- `I8080.prototype.ana_im8`: note HF comes from `(a | v) & 0x08` computed
before the AND. -/
def ana_im8 (s : CPU) (v : Nat) : CPU :=
  let a0 := acc s
  let a1 := a0 &&& v
  let s1 := { s with
      hf := (a0 ||| v) &&& 0x08 != 0
      sf := a1 &&& 0x80 != 0
      zf := a1 == 0
      pf := truthy (parity_table.getD a1 0)
      cf := false }
  set_reg s1 7 a1

/-- `I8080.prototype.ana`. -/
def ana (s : CPU) (r : Nat) : CPU := ana_im8 s (reg s r)

/-- `I8080.prototype.xra_im8`. -/
def xra_im8 (s : CPU) (v : Nat) : CPU :=
  let a1 := acc s ^^^ v
  let s1 := { s with
      sf := a1 &&& 0x80 != 0
      zf := a1 == 0
      hf := false
      pf := truthy (parity_table.getD a1 0)
      cf := false }
  set_reg s1 7 a1

/-- `I8080.prototype.xra`. -/
def xra (s : CPU) (r : Nat) : CPU := xra_im8 s (reg s r)

/-- `I8080.prototype.ora_im8`. -/
def ora_im8 (s : CPU) (v : Nat) : CPU :=
  let a1 := acc s ||| v
  let s1 := { s with
      sf := a1 &&& 0x80 != 0
      zf := a1 == 0
      hf := false
      pf := truthy (parity_table.getD a1 0)
      cf := false }
  set_reg s1 7 a1

/-- `I8080.prototype.ora`. -/
def ora (s : CPU) (r : Nat) : CPU := ora_im8 s (reg s r)

/-- `I8080.prototype.dad`: 16-bit add into HL, CF from bit 16. -/
def dad (s : CPU) (r : Nat) : CPU :=
  let hl0 := hl s + rp s r
  let s1 := { s with cf := hl0 &&& 0x10000 != 0 }
  let s2 := set_reg s1 4 (hl0 >>> 8)
  set_reg s2 5 (hl0 % 0x100)

/-- `I8080.prototype.push`. -/
def push (s : CPU) (v : Nat) : CPU :=
  let s1 := { s with sp := wrap16 ((s.sp : Int) - 2) }
  memory_write_word s1 s1.sp v

/-- `I8080.prototype.pop`. -/
def pop (s : CPU) : Nat × CPU :=
  (memory_read_word s s.sp, { s with sp := (s.sp + 2) % 0x10000 })

/-- `I8080.prototype.call`. -/
def call (s : CPU) (w16 : Nat) : CPU :=
  { push s s.pc with pc := w16 }

/-- `I8080.prototype.ret`. -/
def ret (s : CPU) : CPU :=
  let v := (pop s).1
  let s1 := (pop s).2
  { s1 with pc := v }

/-- `I8080.prototype.rst`. -/
def rst (s : CPU) (addr : Nat) : CPU :=
  { push s s.pc with pc := addr }

/-- `I8080.prototype.store_flags`: flag byte with UN1 forced to 1, UN3/UN5
forced to 0 (the `f &= ~...` lines clear bits that were never set). -/
def store_flags (s : CPU) : Nat :=
  let f : Nat := 0
  let f := if s.sf then f ||| 0x80 else f
  let f := if s.zf then f ||| 0x40 else f
  let f := if s.hf then f ||| 0x10 else f
  let f := if s.pf then f ||| 0x04 else f
  let f := if s.cf then f ||| 0x01 else f
  f ||| 0x02

/-- `I8080.prototype.retrieve_flags`. -/
def retrieve_flags (s : CPU) (f : Nat) : CPU :=
  { s with
      sf := f &&& 0x80 != 0
      zf := f &&& 0x40 != 0
      hf := f &&& 0x10 != 0
      pf := f &&& 0x04 != 0
      cf := f &&& 0x01 != 0 }

def T4 : Nat := 4
def T43 : Nat := 8
def T5 : Nat := 8
def T433 : Nat := 12
def T43333 : Nat := 20
def T4333 : Nat := 16
def T533 : Nat := 16
def T53333 : Nat := 24
def T43335 : Nat := 24

/-- handler for nop (0x00 and the undocumented 0x08/0x10/…/0x38). -/
def h_nop (s : CPU) (_op : Nat) : CPU :=
  { s with vcycles := T4, cpu_cycles := 4 }

/-- handler for lxi rp, data16. -/
def h_lxi (s : CPU) (op : Nat) : CPU :=
  let s1 := { s with vcycles := T433, cpu_cycles := 10 }
  let w := (next_pc_word s1).1
  let s2 := (next_pc_word s1).2
  set_rp s2 (op >>> 3) w

/-- handler for stax b/d. -/
def h_stax (s : CPU) (op : Nat) : CPU :=
  let s1 := { s with vcycles := T43, cpu_cycles := 7 }
  memory_write_byte s1 (rp s1 (op >>> 3)) (acc s1)

/-- handler for inx rp. -/
def h_inx (s : CPU) (op : Nat) : CPU :=
  let s1 := { s with vcycles := T5, cpu_cycles := 5 }
  let r := op >>> 3
  set_rp s1 r ((rp s1 r + 1) % 0x10000)

/-- handler for inr r (registers). -/
def h_inr_r (s : CPU) (op : Nat) : CPU :=
  inr { s with vcycles := T5, cpu_cycles := 5 } (op >>> 3)

/-- handler for inr m. -/
def h_inr_m (s : CPU) (op : Nat) : CPU :=
  inr { s with vcycles := T433, cpu_cycles := 10 } (op >>> 3)

/-- handler for dcr r (registers). -/
def h_dcr_r (s : CPU) (op : Nat) : CPU :=
  dcr { s with vcycles := T5, cpu_cycles := 5 } (op >>> 3)

/-- handler for dcr m. -/
def h_dcr_m (s : CPU) (op : Nat) : CPU :=
  dcr { s with vcycles := T433, cpu_cycles := 10 } (op >>> 3)

/-- handler for mvi r, data8 (registers). -/
def h_mvi_r (s : CPU) (op : Nat) : CPU :=
  let s1 := { s with vcycles := T43, cpu_cycles := 7 }
  set_reg (next_pc_byte s1).2 (op >>> 3) (next_pc_byte s1).1

/-- handler for mvi m, data8. -/
def h_mvi_m (s : CPU) (op : Nat) : CPU :=
  let s1 := { s with vcycles := T433, cpu_cycles := 10 }
  set_reg (next_pc_byte s1).2 (op >>> 3) (next_pc_byte s1).1

/-- handler for rlc. -/
def h_rlc (s : CPU) (_op : Nat) : CPU :=
  let s1 := { s with vcycles := T4, cpu_cycles := 4 }
  let a0 := acc s1
  let s2 := { s1 with cf := a0 &&& 0x80 != 0 }
  set_reg s2 7 (((a0 <<< 1) % 0x100) ||| s2.cf.toNat)

/-- handler for dad rp. -/
def h_dad (s : CPU) (op : Nat) : CPU :=
  dad { s with vcycles := T433, cpu_cycles := 10 } ((op &&& 0x30) >>> 3)

/-- handler for ldax b/d. -/
def h_ldax (s : CPU) (op : Nat) : CPU :=
  let s1 := { s with vcycles := T43, cpu_cycles := 7 }
  let r := (op &&& 0x10) >>> 3
  set_reg s1 7 (memory_read_byte s1 (rp s1 r))

/-- handler for dcx rp. -/
def h_dcx (s : CPU) (op : Nat) : CPU :=
  let s1 := { s with vcycles := T5, cpu_cycles := 5 }
  let r := (op &&& 0x30) >>> 3
  set_rp s1 r (wrap16 ((rp s1 r : Int) - 1))

/-- handler for rrc; `cf` is used as the 0/1 number it is in the source. -/
def h_rrc (s : CPU) (_op : Nat) : CPU :=
  let s1 := { s with vcycles := T4, cpu_cycles := 4 }
  let c := acc s1 &&& 0x01
  let s2 := { s1 with cf := truthy c }
  set_reg s2 7 ((acc s2 >>> 1) ||| (c <<< 7))

/-- handler for ral. -/
def h_ral (s : CPU) (_op : Nat) : CPU :=
  let s1 := { s with vcycles := T4, cpu_cycles := 4 }
  let w8 := s1.cf.toNat
  let s2 := { s1 with cf := acc s1 &&& 0x80 != 0 }
  set_reg s2 7 ((acc s2 <<< 1) ||| w8)

/-- handler for rar. -/
def h_rar (s : CPU) (_op : Nat) : CPU :=
  let s1 := { s with vcycles := T4, cpu_cycles := 4 }
  let w8 := s1.cf.toNat
  let s2 := { s1 with cf := truthy (acc s1 &&& 0x01) }
  set_reg s2 7 ((acc s2 >>> 1) ||| (w8 <<< 7))

/-- handler for shld addr. -/
def h_shld (s : CPU) (_op : Nat) : CPU :=
  let s1 := { s with vcycles := T43333, cpu_cycles := 16 }
  let w16 := (next_pc_word s1).1
  let s2 := (next_pc_word s1).2
  let s3 := memory_write_byte s2 w16 (reg s2 5)
  memory_write_byte s3 (w16 + 1) (reg s3 4)

/-- handler for daa. -/
def h_daa (s : CPU) (_op : Nat) : CPU :=
  let s1 := { s with vcycles := T4, cpu_cycles := 4 }
  let carry := s1.cf
  let a0 := acc s1
  let add0 : Nat := if s1.hf || decide (9 < (a0 &&& 0x0f)) then 0x06 else 0
  let cond2 := s1.cf || decide (9 < (a0 >>> 4)) ||
      (decide (9 ≤ (a0 >>> 4)) && decide (9 < (a0 &&& 0xf)))
  let add1 := if cond2 then add0 ||| 0x60 else add0
  let carry1 := if cond2 then true else carry
  let s2 := add_im8 s1 add1 0
  let s3 := { s2 with pf := truthy (parity_table.getD (acc s2) 0) }
  { s3 with cf := carry1 }

/-- handler for lhld addr (writes `regs[5]`/`regs[4]` directly as the source
does). -/
def h_lhld (s : CPU) (_op : Nat) : CPU :=
  let s1 := { s with vcycles := T43333, cpu_cycles := 16 }
  let w16 := (next_pc_word s1).1
  let s2 := (next_pc_word s1).2
  let s3 := { s2 with regs := fun i => if i = 5 then memory_read_byte s2 w16 else s2.regs i }
  { s3 with regs := fun i => if i = 4 then memory_read_byte s3 (w16 + 1) else s3.regs i }

/-- handler for cma. -/
def h_cma (s : CPU) (_op : Nat) : CPU :=
  let s1 := { s with vcycles := T4, cpu_cycles := 4 }
  set_reg s1 7 (acc s1 ^^^ 0xff)

/-- handler for sta addr. -/
def h_sta (s : CPU) (_op : Nat) : CPU :=
  let s1 := { s with vcycles := T4333, cpu_cycles := 13 }
  memory_write_byte (next_pc_word s1).2 (next_pc_word s1).1 (acc (next_pc_word s1).2)

/-- handler for stc. -/
def h_stc (s : CPU) (_op : Nat) : CPU :=
  { s with vcycles := T4, cpu_cycles := 4, cf := true }

/-- handler for lda addr. -/
def h_lda (s : CPU) (_op : Nat) : CPU :=
  let s1 := { s with vcycles := T4333, cpu_cycles := 13 }
  let s2 := (next_pc_word s1).2
  set_reg s2 7 (memory_read_byte s2 (next_pc_word s1).1)

/-- handler for cmc. -/
def h_cmc (s : CPU) (_op : Nat) : CPU :=
  { s with vcycles := T4, cpu_cycles := 4, cf := !s.cf }

/-- handler for hlt: the source reports 4 T-states (with a comment saying it
should be 7) and rewinds PC so the instruction re-executes. -/
def h_hlt (s : CPU) (_op : Nat) : CPU :=
  let s1 := { s with vcycles := T4, cpu_cycles := 4 }
  { s1 with pc := wrap16 ((s1.pc : Int) - 1) }

/-- handler for add/adc with a register operand. -/
def h_add_r (s : CPU) (op : Nat) : CPU :=
  let r := op &&& 0x07
  let s1 := { s with vcycles := T4, cpu_cycles := 4 }
  add s1 r (if op &&& 0x08 != 0 then s1.cf.toNat else 0)

/-- handler for add/adc m. -/
def h_add_m (s : CPU) (op : Nat) : CPU :=
  let r := op &&& 0x07
  let s1 := { s with vcycles := T43, cpu_cycles := 7 }
  add s1 r (if op &&& 0x08 != 0 then s1.cf.toNat else 0)

/-- handler for sub/sbb with a register operand. -/
def h_sub_r (s : CPU) (op : Nat) : CPU :=
  let r := op &&& 0x07
  let s1 := { s with vcycles := T4, cpu_cycles := 4 }
  sub s1 r (if op &&& 0x08 != 0 then s1.cf.toNat else 0)

/-- handler for sub/sbb m. -/
def h_sub_m (s : CPU) (op : Nat) : CPU :=
  let r := op &&& 0x07
  let s1 := { s with vcycles := T43, cpu_cycles := 7 }
  sub s1 r (if op &&& 0x08 != 0 then s1.cf.toNat else 0)

/-- handler for ana with a register operand. -/
def h_ana_r (s : CPU) (op : Nat) : CPU :=
  ana { s with vcycles := T4, cpu_cycles := 4 } (op &&& 0x07)

/-- handler for ana m. -/
def h_ana_m (s : CPU) (op : Nat) : CPU :=
  ana { s with vcycles := T43, cpu_cycles := 7 } (op &&& 0x07)

/-- handler for xra with a register operand. -/
def h_xra_r (s : CPU) (op : Nat) : CPU :=
  xra { s with vcycles := T4, cpu_cycles := 4 } (op &&& 0x07)

/-- handler for xra m. -/
def h_xra_m (s : CPU) (op : Nat) : CPU :=
  xra { s with vcycles := T43, cpu_cycles := 7 } (op &&& 0x07)

/-- handler for ora with a register operand. -/
def h_ora_r (s : CPU) (op : Nat) : CPU :=
  ora { s with vcycles := T4, cpu_cycles := 4 } (op &&& 0x07)

/-- handler for ora m. -/
def h_ora_m (s : CPU) (op : Nat) : CPU :=
  ora { s with vcycles := T43, cpu_cycles := 7 } (op &&& 0x07)

/-- handler for cmp with a register operand. -/
def h_cmp_r (s : CPU) (op : Nat) : CPU :=
  cmpr { s with vcycles := T4, cpu_cycles := 4 } (op &&& 0x07)

/-- handler for cmp m. -/
def h_cmp_m (s : CPU) (op : Nat) : CPU :=
  cmpr { s with vcycles := T43, cpu_cycles := 7 } (op &&& 0x07)

/-- handler for the conditional returns rnz/rz/rnc/rc/rpo/rpe/rp/rm. -/
def h_rcc (s : CPU) (op : Nat) : CPU :=
  let flags := [s.zf, s.cf, s.pf, s.sf]
  let r := (op >>> 4) &&& 0x03
  let direction := op &&& 0x08 != 0
  let s1 := { s with vcycles := T5, cpu_cycles := 5 }
  if flags.getD r false == direction then
    ret { s1 with cpu_cycles := 11, vcycles := T533 }
  else s1

/-- handler for pop rp / pop psw. -/
def h_pop (s : CPU) (op : Nat) : CPU :=
  let r := (op &&& 0x30) >>> 3
  let s1 := { s with vcycles := T433, cpu_cycles := 10 }
  let w16 := (pop s1).1
  let s2 := (pop s1).2
  if r ≠ 6 then set_rp s2 r w16
  else retrieve_flags (set_reg s2 7 (w16 >>> 8)) (w16 &&& 0xff)

/-- handler for the conditional jumps jnz/jz/jnc/jc/jpo/jpe/jp/jm. -/
def h_jcc (s : CPU) (op : Nat) : CPU :=
  let flags := [s.zf, s.cf, s.pf, s.sf]
  let r := (op >>> 4) &&& 0x03
  let direction := op &&& 0x08 != 0
  let s1 := { s with vcycles := T433, cpu_cycles := 10 }
  let w16 := (next_pc_word s1).1
  let s2 := (next_pc_word s1).2
  { s2 with pc := if flags.getD r false == direction then w16 else s2.pc }

/-- handler for jmp (0xC3 and the undocumented 0xCB). -/
def h_jmp (s : CPU) (_op : Nat) : CPU :=
  let s1 := { s with vcycles := T433, cpu_cycles := 10 }
  { (next_pc_word s1).2 with pc := (next_pc_word s1).1 }

/-- handler for the conditional calls cnz/cz/cnc/cc/cpo/cpe/cp/cm. -/
def h_ccc (s : CPU) (op : Nat) : CPU :=
  let flags := [s.zf, s.cf, s.pf, s.sf]
  let r := (op >>> 4) &&& 0x03
  let direction := op &&& 0x08 != 0
  let w16 := (next_pc_word s).1
  let s1 := { (next_pc_word s).2 with vcycles := T533, cpu_cycles := 11 }
  if flags.getD r false == direction then
    call { s1 with vcycles := T53333, cpu_cycles := 17 } w16
  else s1

/-- handler for push rp / push psw. -/
def h_push (s : CPU) (op : Nat) : CPU :=
  let r := (op &&& 0x30) >>> 3
  let s1 := { s with vcycles := T533, cpu_cycles := 11 }
  let w16 := if r ≠ 6 then rp s1 r else (acc s1 <<< 8) ||| store_flags s1
  push s1 w16

/-- handler for adi data8. -/
def h_adi (s : CPU) (_op : Nat) : CPU :=
  let s1 := { s with vcycles := T43, cpu_cycles := 7 }
  add_im8 (next_pc_byte s1).2 (next_pc_byte s1).1 0

/-- handler for rst 0..7. -/
def h_rst (s : CPU) (op : Nat) : CPU :=
  rst { s with vcycles := T533, cpu_cycles := 11 } (op &&& 0x38)

/-- handler for ret (0xC9 and the undocumented 0xD9). -/
def h_ret (s : CPU) (_op : Nat) : CPU :=
  ret { s with vcycles := T433, cpu_cycles := 10 }

/-- handler for call (0xCD and the undocumented 0xDD/0xED/0xFD). -/
def h_call (s : CPU) (_op : Nat) : CPU :=
  let s1 := { s with vcycles := T53333, cpu_cycles := 17 }
  call (next_pc_word s1).2 (next_pc_word s1).1

/-- handler for aci data8. -/
def h_aci (s : CPU) (_op : Nat) : CPU :=
  let s1 := { s with vcycles := T43, cpu_cycles := 7 }
  add_im8 (next_pc_byte s1).2 (next_pc_byte s1).1 s1.cf.toNat

/-- handler for out port8: records the `io.output` call. -/
def h_out (s : CPU) (_op : Nat) : CPU :=
  let s1 := { s with vcycles := T433, cpu_cycles := 10 }
  let p := (next_pc_byte s1).1
  let s2 := (next_pc_byte s1).2
  { s2 with events := s2.events ++ [IOEv.output p (acc s2)] }

/-- handler for sui data8. -/
def h_sui (s : CPU) (_op : Nat) : CPU :=
  let s1 := { s with vcycles := T43, cpu_cycles := 7 }
  sub_im8 (next_pc_byte s1).2 (next_pc_byte s1).1 0

/-- handler for in port8. -/
def h_in (s : CPU) (_op : Nat) : CPU :=
  let s1 := { s with vcycles := T433, cpu_cycles := 10 }
  let p := (next_pc_byte s1).1
  let s2 := (next_pc_byte s1).2
  set_reg s2 7 (s2.io_input p)

/-- handler for sbi data8. -/
def h_sbi (s : CPU) (_op : Nat) : CPU :=
  let s1 := { s with vcycles := T43, cpu_cycles := 7 }
  sub_im8 (next_pc_byte s1).2 (next_pc_byte s1).1 s1.cf.toNat

/-- handler for xthl. -/
def h_xthl (s : CPU) (_op : Nat) : CPU :=
  let s1 := { s with vcycles := T43335, cpu_cycles := 18 }
  let w16 := memory_read_word s1 s1.sp
  let s2 := memory_write_word s1 s1.sp (hl s1)
  let s3 := set_reg s2 5 (w16 &&& 0xff)
  set_reg s3 4 (w16 >>> 8)

/-- handler for ani data8. -/
def h_ani (s : CPU) (_op : Nat) : CPU :=
  let s1 := { s with vcycles := T43, cpu_cycles := 7 }
  ana_im8 (next_pc_byte s1).2 (next_pc_byte s1).1

/-- handler for pchl. -/
def h_pchl (s : CPU) (_op : Nat) : CPU :=
  { s with vcycles := T5, cpu_cycles := 5, pc := hl s }

/-- handler for xchg. -/
def h_xchg (s : CPU) (_op : Nat) : CPU :=
  let s1 := { s with vcycles := T4, cpu_cycles := 4 }
  let w8 := reg s1 5
  let s2 := set_reg s1 5 (reg s1 3)
  let s3 := set_reg s2 3 w8
  let w8l := reg s3 4
  let s4 := set_reg s3 4 (reg s3 2)
  set_reg s4 2 w8l

/-- handler for xri data8. -/
def h_xri (s : CPU) (_op : Nat) : CPU :=
  let s1 := { s with vcycles := T43, cpu_cycles := 7 }
  xra_im8 (next_pc_byte s1).2 (next_pc_byte s1).1

/-- handler for di (0xF3) and ei (0xFB); bit 3 of the opcode selects ei. -/
def h_diei (s : CPU) (op : Nat) : CPU :=
  let s1 := { s with vcycles := T4, cpu_cycles := 4 }
  if op &&& 0x08 != 0 then
    { s1 with iff_pending := 2 }
  else
    { s1 with iff := false, events := s1.events ++ [IOEv.interrupt false] }

/-- handler for ori data8. -/
def h_ori (s : CPU) (_op : Nat) : CPU :=
  let s1 := { s with vcycles := T43, cpu_cycles := 7 }
  ora_im8 (next_pc_byte s1).2 (next_pc_byte s1).1

/-- handler for sphl. -/
def h_sphl (s : CPU) (_op : Nat) : CPU :=
  { s with vcycles := T5, cpu_cycles := 5, sp := hl s }

/-- handler for cpi data8. -/
def h_cpi (s : CPU) (_op : Nat) : CPU :=
  let s1 := { s with vcycles := T43, cpu_cycles := 7 }
  cmp_im8 (next_pc_byte s1).2 (next_pc_byte s1).1

/-- handler for the mov group 0x40..0x7F (0x76 is hlt): the source assigns one
closure to each of those 63 opcodes. -/
def h_mov (s : CPU) (op : Nat) : CPU :=
  let src := op &&& 7
  let dst := (op >>> 3) &&& 7
  let s1 :=
    if src = 6 ∨ dst = 6 then { s with vcycles := T43, cpu_cycles := 7 }
    else { s with vcycles := T5, cpu_cycles := if src = 6 ∨ dst = 6 then 7 else 5 }
  set_reg s1 dst (reg s1 src)

/-- The 256-entry handler table of `initHandlers`, as a dispatch on the
opcode: each branch condition lists exactly the opcodes the source assigns to
the corresponding handler closure (the mov group is 0x40..0x7F minus 0x76).
Opcodes outside 0..255 never occur (the fetch masks to a byte); for them the
source would alert and leave the state alone, modelled as the identity. -/
def dispatch (s : CPU) (op : Nat) : CPU :=
  if op = 0x00 ∨ op = 0x08 ∨ op = 0x10 ∨ op = 0x18 ∨ op = 0x20 ∨ op = 0x28 ∨ op = 0x30 ∨ op = 0x38 then h_nop s op
  else if op = 0x01 ∨ op = 0x11 ∨ op = 0x21 ∨ op = 0x31 then h_lxi s op
  else if op = 0x02 ∨ op = 0x12 then h_stax s op
  else if op = 0x03 ∨ op = 0x13 ∨ op = 0x23 ∨ op = 0x33 then h_inx s op
  else if op = 0x04 ∨ op = 0x0C ∨ op = 0x14 ∨ op = 0x1C ∨ op = 0x24 ∨ op = 0x2C ∨ op = 0x3C then h_inr_r s op
  else if op = 0x34 then h_inr_m s op
  else if op = 0x05 ∨ op = 0x0D ∨ op = 0x15 ∨ op = 0x1D ∨ op = 0x25 ∨ op = 0x2D ∨ op = 0x3D then h_dcr_r s op
  else if op = 0x35 then h_dcr_m s op
  else if op = 0x06 ∨ op = 0x0E ∨ op = 0x16 ∨ op = 0x1E ∨ op = 0x26 ∨ op = 0x2E ∨ op = 0x3E then h_mvi_r s op
  else if op = 0x36 then h_mvi_m s op
  else if op = 0x07 then h_rlc s op
  else if op = 0x09 ∨ op = 0x19 ∨ op = 0x29 ∨ op = 0x39 then h_dad s op
  else if op = 0x0A ∨ op = 0x1A then h_ldax s op
  else if op = 0x0B ∨ op = 0x1B ∨ op = 0x2B ∨ op = 0x3B then h_dcx s op
  else if op = 0x0F then h_rrc s op
  else if op = 0x17 then h_ral s op
  else if op = 0x1F then h_rar s op
  else if op = 0x22 then h_shld s op
  else if op = 0x27 then h_daa s op
  else if op = 0x2A then h_lhld s op
  else if op = 0x2F then h_cma s op
  else if op = 0x32 then h_sta s op
  else if op = 0x37 then h_stc s op
  else if op = 0x3A then h_lda s op
  else if op = 0x3F then h_cmc s op
  else if op = 0x76 then h_hlt s op
  else if 0x40 ≤ op ∧ op < 0x80 then h_mov s op
  else if 0x80 ≤ op ∧ op < 0x90 ∧ op ≠ 0x86 ∧ op ≠ 0x8E then h_add_r s op
  else if op = 0x86 ∨ op = 0x8E then h_add_m s op
  else if 0x90 ≤ op ∧ op < 0xA0 ∧ op ≠ 0x96 ∧ op ≠ 0x9E then h_sub_r s op
  else if op = 0x96 ∨ op = 0x9E then h_sub_m s op
  else if 0xA0 ≤ op ∧ op < 0xA8 ∧ op ≠ 0xA6 then h_ana_r s op
  else if op = 0xA6 then h_ana_m s op
  else if 0xA8 ≤ op ∧ op < 0xB0 ∧ op ≠ 0xAE then h_xra_r s op
  else if op = 0xAE then h_xra_m s op
  else if 0xB0 ≤ op ∧ op < 0xB8 ∧ op ≠ 0xB6 then h_ora_r s op
  else if op = 0xB6 then h_ora_m s op
  else if 0xB8 ≤ op ∧ op < 0xC0 ∧ op ≠ 0xBE then h_cmp_r s op
  else if op = 0xBE then h_cmp_m s op
  else if op = 0xC0 ∨ op = 0xC8 ∨ op = 0xD0 ∨ op = 0xD8 ∨ op = 0xE0 ∨ op = 0xE8 ∨ op = 0xF0 ∨ op = 0xF8 then h_rcc s op
  else if op = 0xC1 ∨ op = 0xD1 ∨ op = 0xE1 ∨ op = 0xF1 then h_pop s op
  else if op = 0xC2 ∨ op = 0xCA ∨ op = 0xD2 ∨ op = 0xDA ∨ op = 0xE2 ∨ op = 0xEA ∨ op = 0xF2 ∨ op = 0xFA then h_jcc s op
  else if op = 0xC3 ∨ op = 0xCB then h_jmp s op
  else if op = 0xC4 ∨ op = 0xCC ∨ op = 0xD4 ∨ op = 0xDC ∨ op = 0xE4 ∨ op = 0xEC ∨ op = 0xF4 ∨ op = 0xFC then h_ccc s op
  else if op = 0xC5 ∨ op = 0xD5 ∨ op = 0xE5 ∨ op = 0xF5 then h_push s op
  else if op = 0xC6 then h_adi s op
  else if op = 0xC7 ∨ op = 0xCF ∨ op = 0xD7 ∨ op = 0xDF ∨ op = 0xE7 ∨ op = 0xEF ∨ op = 0xF7 ∨ op = 0xFF then h_rst s op
  else if op = 0xC9 ∨ op = 0xD9 then h_ret s op
  else if op = 0xCD ∨ op = 0xDD ∨ op = 0xED ∨ op = 0xFD then h_call s op
  else if op = 0xCE then h_aci s op
  else if op = 0xD3 then h_out s op
  else if op = 0xD6 then h_sui s op
  else if op = 0xDB then h_in s op
  else if op = 0xDE then h_sbi s op
  else if op = 0xE3 then h_xthl s op
  else if op = 0xE6 then h_ani s op
  else if op = 0xE9 then h_pchl s op
  else if op = 0xEB then h_xchg s op
  else if op = 0xEE then h_xri s op
  else if op = 0xF3 ∨ op = 0xFB then h_diei s op
  else if op = 0xF6 then h_ori s op
  else if op = 0xF9 then h_sphl s op
  else if op = 0xFE then h_cpi s op
  else s

/-- The trailing `iff_pending` check of `I8080.prototype.execute`: after every
instruction a nonzero pending count is decremented, and on reaching zero the
interrupts are enabled and `io.interrupt(true)` fires. -/
def pending_check (s : CPU) : CPU :=
  if s.iff_pending ≠ 0 then
    if s.iff_pending - 1 = 0 then
      { s with iff_pending := 0, iff := true, events := s.events ++ [IOEv.interrupt true] }
    else { s with iff_pending := s.iff_pending - 1 }
  else s

/-- `I8080.prototype.execute` (the JS function returns `cpu_cycles`, which is
a field of the resulting state here). -/
def execute (s : CPU) (opcode : Nat) : CPU :=
  pending_check (dispatch { s with last_opcode := opcode } opcode)

/-- `I8080.prototype.instruction`: fetch one opcode byte at PC and execute. -/
def instruction (s : CPU) : CPU :=
  execute (next_pc_byte s).2 (next_pc_byte s).1

/-- The reset state built by the `I8080` constructor: everything zeroed,
interrupts disabled, nothing pending. -/
def cpu0 : CPU :=
  { pc := 0, sp := 0, regs := fun _ => 0,
    sf := false, zf := false, hf := false, pf := false, cf := false,
    iff := false, iff_pending := 0, cpu_cycles := 0, vcycles := 0,
    last_opcode := 0, mem := fun _ => 0, io_input := fun _ => 0, events := [] }

/-- The five architectural flags of a state, bundled for comparison. -/
def flags5 (s : CPU) : Bool × Bool × Bool × Bool × Bool :=
  (s.sf, s.zf, s.hf, s.pf, s.cf)

/-- Even parity of the low byte: true when the number of set bits among bits
0..7 is even (the specification's reading of the parity flag). -/
def evenParity (n : Nat) : Bool :=
  ((List.range 8).countP fun i => n.testBit i) % 2 == 0

/-- Bit 3 of a byte, as 0 or 1 (the specification's half-carry table index is
built from these). -/
def bit3 (n : Nat) : Nat := n / 8 % 2

/- ------------------------------------------------------------------ -/
/- Frame lemmas for the post-instruction pending-interrupt check.      -/
/- ------------------------------------------------------------------ -/

theorem pending_check_regs (s : CPU) : (pending_check s).regs = s.regs := by
  unfold pending_check; split <;> first | rfl | (split <;> rfl)

theorem pending_check_mem (s : CPU) : (pending_check s).mem = s.mem := by
  unfold pending_check; split <;> first | rfl | (split <;> rfl)

theorem pending_check_sp (s : CPU) : (pending_check s).sp = s.sp := by
  unfold pending_check; split <;> first | rfl | (split <;> rfl)

theorem pending_check_pc (s : CPU) : (pending_check s).pc = s.pc := by
  unfold pending_check; split <;> first | rfl | (split <;> rfl)

theorem pending_check_sf (s : CPU) : (pending_check s).sf = s.sf := by
  unfold pending_check; split <;> first | rfl | (split <;> rfl)

theorem pending_check_zf (s : CPU) : (pending_check s).zf = s.zf := by
  unfold pending_check; split <;> first | rfl | (split <;> rfl)

theorem pending_check_hf (s : CPU) : (pending_check s).hf = s.hf := by
  unfold pending_check; split <;> first | rfl | (split <;> rfl)

theorem pending_check_pf (s : CPU) : (pending_check s).pf = s.pf := by
  unfold pending_check; split <;> first | rfl | (split <;> rfl)

theorem pending_check_cf (s : CPU) : (pending_check s).cf = s.cf := by
  unfold pending_check; split <;> first | rfl | (split <;> rfl)

theorem pending_check_cycles (s : CPU) : (pending_check s).cpu_cycles = s.cpu_cycles := by
  unfold pending_check; split <;> first | rfl | (split <;> rfl)

theorem pending_check_of_one (s : CPU) (h : s.iff_pending = 1) :
    pending_check s =
      { s with iff_pending := 0, iff := true, events := s.events ++ [IOEv.interrupt true] } := by
  unfold pending_check
  rw [h]
  norm_num

theorem iffp_h_rcc (s : CPU) (op : Nat) : (h_rcc s op).iff_pending = s.iff_pending := by
  simp only [h_rcc, ret, pop]
  split <;> rfl

theorem iffp_h_ccc (s : CPU) (op : Nat) : (h_ccc s op).iff_pending = s.iff_pending := by
  simp only [h_ccc, call, push, memory_write_word, memory_write_byte]
  split <;> rfl

set_option maxHeartbeats 4000000 in
theorem dispatch_iff_pending (s : CPU) (op : Nat) (hop : op < 256) :
    (dispatch s op).iff_pending = if op = 0xFB then 2 else s.iff_pending := by
  interval_cases op <;> first | rfl | exact iffp_h_rcc s _ | exact iffp_h_ccc s _

/-- C4: `EI` (opcode 0xFB) sets `iff_pending` to 2; at the end of every
executed instruction a nonzero `iff_pending` is decremented and, on reaching
zero, `iff` becomes true and `interrupt(true)` fires; hence `iff` is still
unchanged when the EI instruction itself completes (the pending count is then
1) and becomes true exactly at the end of the following instruction. -/
theorem C4_ei_one_instruction_delay (s t : CPU) (op : Nat)
    (hop : op < 256) (hne : op ≠ 0xFB) :
    (dispatch s 0xFB).iff_pending = 2 ∧
    (execute s 0xFB).iff_pending = 1 ∧
    (execute s 0xFB).iff = s.iff ∧
    (t.iff_pending ≠ 0 → (pending_check t).iff_pending = t.iff_pending - 1) ∧
    (t.iff_pending = 1 →
      (pending_check t).iff = true ∧
      (pending_check t).events = t.events ++ [IOEv.interrupt true]) ∧
    (execute (execute s 0xFB) op).iff = true := by
  refine ⟨rfl, rfl, rfl, ?_, ?_, ?_⟩
  · intro h
    unfold pending_check
    rw [if_pos h]
    split
    · rename_i h2
      exact h2.symm
    · rfl
  · intro h
    rw [pending_check_of_one t h]
    exact ⟨rfl, rfl⟩
  · have h2 : (dispatch { execute s 0xFB with last_opcode := op } op).iff_pending = 1 := by
      rw [dispatch_iff_pending _ op hop, if_neg hne]
      rfl
    show (pending_check (dispatch { execute s 0xFB with last_opcode := op } op)).iff = true
    rw [pending_check_of_one _ h2]

theorem C4_ei_one_instruction_delay_witness :
    (0 : Nat) < 256 ∧ (0 : Nat) ≠ 0xFB ∧ (execute (execute cpu0 0xFB) 0).iff = true :=
  ⟨by decide, by decide,
    (C4_ei_one_instruction_delay cpu0 cpu0 0 (by decide) (by decide)).2.2.2.2.2⟩

/-- C1: evaluation of the DI opcode.  From the reset state (no pending EI)
DI behaves as the claim says, but from the state right after an EI
(`iff_pending = 1`) the handler does not clear `iff_pending`, so the
post-instruction check re-enables interrupts at the end of the DI itself:
`iff` ends up true and `interrupt(true)` fires right after `interrupt(false)`,
contradicting the claim for that state. -/
theorem C1_di_evaluation :
    (execute cpu0 0xF3).iff = false ∧
    (execute cpu0 0xF3).iff_pending = 0 ∧
    (execute cpu0 0xF3).events = [IOEv.interrupt false] ∧
    (execute (execute cpu0 0xFB) 0xF3).iff = true ∧
    (execute (execute cpu0 0xFB) 0xF3).iff_pending = 0 ∧
    (execute (execute cpu0 0xFB) 0xF3).events = [IOEv.interrupt false, IOEv.interrupt true] := by
  decide

/-- C5: evaluation of the HLT opcode: the source reports `cpu_cycles = 4`
(its own comment says it should be 7, and the documented 8080 count is 7). -/
theorem C5_hlt_cycles_evaluation :
    (execute cpu0 0x76).cpu_cycles = 4 ∧
    (instruction { cpu0 with mem := fun _ => 0x76 }).cpu_cycles = 4 := by
  decide

/-- C9 counterexample: starting with CF = 1, `STC` then `CMC` ends with
CF = 0, so the sequence does not leave CF unchanged. -/
theorem C9_stc_cmc_counterexample :
    ({ cpu0 with cf := true } : CPU).cf = true ∧
    (execute (execute { cpu0 with cf := true } 0x37) 0x3F).cf = false := by
  decide

/-- C9 amended: `STC` followed by `CMC` always ends with CF = 0 (whatever CF
was before), and a single `CMC` toggles CF. -/
theorem C9_stc_cmc_amended (s : CPU) :
    (execute (execute s 0x37) 0x3F).cf = false ∧ (execute s 0x3F).cf = !s.cf := by
  constructor
  · have h1 : (execute s 0x37).cf = true := by
      show (pending_check (dispatch { s with last_opcode := 0x37 } 0x37)).cf = true
      rw [pending_check_cf]
      rfl
    show (pending_check
        (dispatch { execute s 0x37 with last_opcode := 0x3F } 0x3F)).cf = false
    rw [pending_check_cf]
    show (!(execute s 0x37).cf) = false
    rw [h1]
    rfl
  · show (pending_check (dispatch { s with last_opcode := 0x3F } 0x3F)).cf = !s.cf
    rw [pending_check_cf]
    rfl

/-- C2 counterexample: from A = 0x3A, CF = 1 (HF = 0) the DAA opcode leaves
A = 0xA0, not 0x40 as the claim states (with CF set the code, like a real
8080, adds 0x66 and 0x3A + 0x66 = 0xA0). -/
theorem C2_daa_counterexample :
    (execute { cpu0 with regs := fun i => if i = 7 then 0x3A else 0, cf := true } 0x27).regs 7
        = 0xA0 ∧
    ¬ (execute { cpu0 with regs := fun i => if i = 7 then 0x3A else 0, cf := true } 0x27).regs 7
        = 0x40 := by
  decide

set_option maxRecDepth 10000 in
/-- C2 amended: for every state with A = 0x3A, CF = 1 and HF = 0, executing
DAA (opcode 0x27) yields A = 0xA0 and CF = 1. -/
theorem C2_daa_a3a_cf (s : CPU) (h7 : s.regs 7 = 0x3A) (hcf : s.cf = true)
    (hhf : s.hf = false) :
    (execute s 0x27).regs 7 = 0xA0 ∧ (execute s 0x27).cf = true := by
  have e : execute s 0x27 = pending_check (h_daa { s with last_opcode := 0x27 } 0x27) := rfl
  rw [e]
  rw [pending_check_regs, pending_check_cf]
  simp [h_daa, add_im8, acc, reg, set_reg, memory_write_byte, truthy, h7, hcf, hhf,
    half_carry_table, parity_table]
  decide

theorem C2_daa_a3a_cf_witness :
    (({ cpu0 with regs := fun i => if i = 7 then 0x3A else 0, cf := true } : CPU).regs 7 = 0x3A ∧
     ({ cpu0 with regs := fun i => if i = 7 then 0x3A else 0, cf := true } : CPU).cf = true ∧
     ({ cpu0 with regs := fun i => if i = 7 then 0x3A else 0, cf := true } : CPU).hf = false) ∧
    ((execute { cpu0 with regs := fun i => if i = 7 then 0x3A else 0, cf := true } 0x27).regs 7
        = 0xA0 ∧
     (execute { cpu0 with regs := fun i => if i = 7 then 0x3A else 0, cf := true } 0x27).cf
        = true) :=
  ⟨⟨by decide, by decide, by decide⟩,
    C2_daa_a3a_cf { cpu0 with regs := fun i => if i = 7 then 0x3A else 0, cf := true }
      (by decide) (by decide) (by decide)⟩

/-- C6: if the byte at PC is 0x76 (HLT), one `instruction()` step leaves PC
where it was: the fetch advances PC by one (mod 2^16) and the handler
decrements it again, for every address including the wrap at 0xFFFF. -/
theorem C6_hlt_parks_pc (s : CPU) (hpc : s.pc < 0x10000)
    (hm : memory_read_byte s s.pc = 0x76) :
    (instruction s).pc = s.pc := by
  have e1 : (next_pc_byte s).1 = 0x76 := hm
  unfold instruction
  rw [e1]
  have e2 : execute (next_pc_byte s).2 0x76
      = pending_check (h_hlt { (next_pc_byte s).2 with last_opcode := 0x76 } 0x76) := rfl
  rw [e2, pending_check_pc]
  show wrap16 ((((s.pc + 1) % 0x10000 : Nat) : Int) - 1) = s.pc
  unfold wrap16
  omega

theorem C6_hlt_parks_pc_witness :
    (({ cpu0 with mem := fun _ => 0x76 } : CPU).pc < 0x10000 ∧
     memory_read_byte { cpu0 with mem := fun _ => 0x76 } ({ cpu0 with mem := fun _ => 0x76 } : CPU).pc = 0x76) ∧
    (instruction { cpu0 with mem := fun _ => 0x76 }).pc = ({ cpu0 with mem := fun _ => 0x76 } : CPU).pc :=
  ⟨⟨by decide, by decide⟩,
    C6_hlt_parks_pc { cpu0 with mem := fun _ => 0x76 } (by decide) (by decide)⟩

theorem pending_check_flags5 (t : CPU) : flags5 (pending_check t) = flags5 t := by
  unfold flags5
  rw [pending_check_sf, pending_check_zf, pending_check_hf, pending_check_pf, pending_check_cf]

/-- C7: for every register or M operand (opcodes 0xB8+r vs 0x90+r, r = 0..7)
and for the immediate forms (CPI 0xFE vs SUI 0xD6), executing CMP leaves the
accumulator unchanged and produces exactly the five flags that executing SUB
from the same state would produce. -/
theorem C7_cmp_is_sub_with_acc_restored (s : CPU) (r : Nat) (hr : r < 8)
    (hA : s.regs 7 < 256) :
    (flags5 (execute s (0xB8 + r)) = flags5 (execute s (0x90 + r)) ∧
     (execute s (0xB8 + r)).regs 7 = s.regs 7) ∧
    (flags5 (execute s 0xFE) = flags5 (execute s 0xD6) ∧
     (execute s 0xFE).regs 7 = s.regs 7) := by
  refine ⟨⟨?_, ?_⟩, ?_, ?_⟩
  · interval_cases r <;>
      (show flags5 (pending_check _) = flags5 (pending_check _)
       rw [pending_check_flags5, pending_check_flags5]
       rfl)
  · interval_cases r <;>
      (show (pending_check _).regs 7 = s.regs 7
       rw [pending_check_regs]
       show s.regs 7 % 256 = s.regs 7
       exact Nat.mod_eq_of_lt hA)
  · show flags5 (pending_check _) = flags5 (pending_check _)
    rw [pending_check_flags5, pending_check_flags5]
    rfl
  · show (pending_check _).regs 7 = s.regs 7
    rw [pending_check_regs]
    show s.regs 7 % 256 = s.regs 7
    exact Nat.mod_eq_of_lt hA

theorem C7_cmp_is_sub_with_acc_restored_witness :
    ((0 : Nat) < 8 ∧ cpu0.regs 7 < 256) ∧
    ((flags5 (execute cpu0 (0xB8 + 0)) = flags5 (execute cpu0 (0x90 + 0)) ∧
      (execute cpu0 (0xB8 + 0)).regs 7 = cpu0.regs 7) ∧
     (flags5 (execute cpu0 0xFE) = flags5 (execute cpu0 0xD6) ∧
      (execute cpu0 0xFE).regs 7 = cpu0.regs 7)) :=
  ⟨⟨by decide, by decide⟩,
    C7_cmp_is_sub_with_acc_restored cpu0 0 (by decide) (by decide)⟩

theorem wrap16_lt (x : Int) : wrap16 x < 0x10000 := by
  unfold wrap16
  omega

theorem shl8_lor (hi lo : Nat) (h : lo < 0x100) : (hi <<< 8) ||| lo = 256 * hi + lo := by
  rw [Nat.shiftLeft_eq, Nat.mul_comm hi (2 ^ 8),
    ← Nat.mul_add_lt_is_or (show lo < 2 ^ 8 by omega) hi]

theorem lor_shl8 (lo hi : Nat) (h : lo < 0x100) : lo ||| (hi <<< 8) = 256 * hi + lo := by
  rw [Nat.lor_comm]
  exact shl8_lor hi lo h

theorem store_flags_lt (s : CPU) : store_flags s < 0x100 := by
  unfold store_flags
  cases s.sf <;> cases s.zf <;> cases s.hf <;> cases s.pf <;> cases s.cf <;> decide

theorem retrieve_store_flags5 (t s : CPU) :
    flags5 (retrieve_flags t (store_flags s)) = flags5 s := by
  unfold flags5 retrieve_flags store_flags
  cases s.sf <;> cases s.zf <;> cases s.hf <;> cases s.pf <;> cases s.cf <;> rfl

theorem store_flags_unbits (s : CPU) :
    store_flags s &&& 0x02 = 0x02 ∧ store_flags s &&& 0x08 = 0 ∧
    store_flags s &&& 0x20 = 0 := by
  unfold store_flags
  cases s.sf <;> cases s.zf <;> cases s.hf <;> cases s.pf <;> cases s.cf <;> decide

theorem h_push_psw_mem (s : CPU) (a : Nat) :
    (h_push s 0xF5).mem a =
      (if a = (wrap16 ((s.sp : Int) - 2) + 1) % 0x10000
       then (((acc s <<< 8) ||| store_flags s) >>> 8) % 0x100
       else if a = wrap16 ((s.sp : Int) - 2) % 0x10000
       then (((acc s <<< 8) ||| store_flags s) % 0x100) % 0x100
       else s.mem a) := rfl

theorem h_push_psw_sp (s : CPU) : (h_push s 0xF5).sp = wrap16 ((s.sp : Int) - 2) := rfl

theorem h_pop_psw_regs7 (s : CPU) :
    (h_pop s 0xF1).regs 7 = ((memory_read_word s s.sp) >>> 8) % 0x100 := rfl

theorem h_pop_psw_flags5 (s : CPU) :
    flags5 (h_pop s 0xF1) = flags5 (retrieve_flags s (memory_read_word s s.sp &&& 0xff)) := rfl

/-- C8: for every starting state with a byte-sized accumulator, executing
PUSH PSW (0xF5) and then POP PSW (0xF1) restores the accumulator and all five
flags; the flag byte that PUSH PSW writes at SP-2 is `store_flags`, whose
bit 1 is always 1 and bits 3 and 5 are always 0. -/
theorem C8_push_pop_psw (s : CPU) (hA : s.regs 7 < 0x100) :
    (execute (execute s 0xF5) 0xF1).regs 7 = s.regs 7 ∧
    flags5 (execute (execute s 0xF5) 0xF1) = flags5 s ∧
    memory_read_byte (execute s 0xF5) (wrap16 ((s.sp : Int) - 2)) = store_flags s ∧
    store_flags s &&& 0x02 = 0x02 ∧ store_flags s &&& 0x08 = 0 ∧
    store_flags s &&& 0x20 = 0 := by
  have hfl : store_flags s < 0x100 := store_flags_lt s
  have hplt : wrap16 ((s.sp : Int) - 2) < 0x10000 := wrap16_lt _
  have e1 : execute s 0xF5 = pending_check (h_push { s with last_opcode := 0xF5 } 0xF5) := rfl
  have e2 : execute (execute s 0xF5) 0xF1
      = pending_check (h_pop { execute s 0xF5 with last_opcode := 0xF1 } 0xF1) := rfl
  have hacc : acc { s with last_opcode := 0xF5 } = s.regs 7 := rfl
  have hsfl : store_flags { s with last_opcode := 0xF5 } = store_flags s := rfl
  have hspl : ({ s with last_opcode := 0xF5 } : CPU).sp = s.sp := rfl
  have hXmem : (execute s 0xF5).mem = (h_push { s with last_opcode := 0xF5 } 0xF5).mem := by
    rw [e1, pending_check_mem]
  have hXsp : (execute s 0xF5).sp = wrap16 ((s.sp : Int) - 2) := by
    rw [e1, pending_check_sp, h_push_psw_sp, hspl]
  have hm1 : (execute s 0xF5).mem (wrap16 ((s.sp : Int) - 2) % 0x10000) % 0x100
      = store_flags s := by
    rw [hXmem, h_push_psw_mem, hacc, hsfl, hspl]
    rw [if_neg (by omega), if_pos rfl]
    rw [shl8_lor _ _ hfl]
    omega
  have hm2 : (execute s 0xF5).mem ((wrap16 ((s.sp : Int) - 2) + 1) % 0x10000) % 0x100
      = s.regs 7 := by
    rw [hXmem, h_push_psw_mem, hacc, hsfl, hspl]
    rw [if_pos rfl]
    rw [shl8_lor _ _ hfl, Nat.shiftRight_eq_div_pow]
    omega
  have htmem : ({ execute s 0xF5 with last_opcode := 0xF1 } : CPU).mem
      = (execute s 0xF5).mem := rfl
  have htsp : ({ execute s 0xF5 with last_opcode := 0xF1 } : CPU).sp
      = (execute s 0xF5).sp := rfl
  have hwrd : memory_read_word { execute s 0xF5 with last_opcode := 0xF1 }
      (({ execute s 0xF5 with last_opcode := 0xF1 } : CPU).sp)
      = 256 * s.regs 7 + store_flags s := by
    unfold memory_read_word memory_read_byte
    rw [htmem, htsp, hXsp]
    rw [hm1, hm2]
    exact lor_shl8 _ _ hfl
  refine ⟨?_, ?_, ?_, (store_flags_unbits s).1, (store_flags_unbits s).2.1,
    (store_flags_unbits s).2.2⟩
  · rw [e2, pending_check_regs, h_pop_psw_regs7, hwrd, Nat.shiftRight_eq_div_pow]
    omega
  · rw [e2, pending_check_flags5, h_pop_psw_flags5, hwrd]
    have hand : (256 * s.regs 7 + store_flags s) &&& 0xff = store_flags s := by
      have h255 : (0xff : Nat) = 2 ^ 8 - 1 := rfl
      rw [h255, Nat.and_pow_two_sub_one_eq_mod]
      omega
    rw [hand]
    exact retrieve_store_flags5 _ s
  · unfold memory_read_byte
    exact hm1

theorem C8_push_pop_psw_witness :
    (({ cpu0 with regs := fun i => if i = 7 then 0xAB else 0, sf := true, cf := true, sp := 1 } : CPU).regs 7 < 0x100) ∧
    ((execute (execute { cpu0 with regs := fun i => if i = 7 then 0xAB else 0, sf := true, cf := true, sp := 1 } 0xF5) 0xF1).regs 7
        = ({ cpu0 with regs := fun i => if i = 7 then 0xAB else 0, sf := true, cf := true, sp := 1 } : CPU).regs 7 ∧
     flags5 (execute (execute { cpu0 with regs := fun i => if i = 7 then 0xAB else 0, sf := true, cf := true, sp := 1 } 0xF5) 0xF1)
        = flags5 { cpu0 with regs := fun i => if i = 7 then 0xAB else 0, sf := true, cf := true, sp := 1 } ∧
     memory_read_byte (execute { cpu0 with regs := fun i => if i = 7 then 0xAB else 0, sf := true, cf := true, sp := 1 } 0xF5)
        (wrap16 ((({ cpu0 with regs := fun i => if i = 7 then 0xAB else 0, sf := true, cf := true, sp := 1 } : CPU).sp : Int) - 2))
        = store_flags { cpu0 with regs := fun i => if i = 7 then 0xAB else 0, sf := true, cf := true, sp := 1 } ∧
     store_flags { cpu0 with regs := fun i => if i = 7 then 0xAB else 0, sf := true, cf := true, sp := 1 } &&& 0x02 = 0x02 ∧
     store_flags { cpu0 with regs := fun i => if i = 7 then 0xAB else 0, sf := true, cf := true, sp := 1 } &&& 0x08 = 0 ∧
     store_flags { cpu0 with regs := fun i => if i = 7 then 0xAB else 0, sf := true, cf := true, sp := 1 } &&& 0x20 = 0) :=
  ⟨by decide,
    C8_push_pop_psw { cpu0 with regs := fun i => if i = 7 then 0xAB else 0, sf := true, cf := true, sp := 1 } (by decide)⟩

theorem and_two_pow_bne (x n : Nat) : (x &&& 2 ^ n != 0) = x.testBit n := by
  cases h : x.testBit n
  · have hz : x &&& 2 ^ n = 0 := by
      apply Nat.eq_of_testBit_eq
      intro i
      simp only [Nat.testBit_and, Nat.zero_testBit, Nat.testBit_two_pow]
      rcases eq_or_ne n i with rfl | hne
      · simp [h]
      · simp [hne]
    simp [hz]
  · have ht : (x &&& 2 ^ n).testBit n = true := by
      simp [Nat.testBit_and, h, Nat.testBit_two_pow]
    have hnz : x &&& 2 ^ n ≠ 0 := by
      intro h0
      rw [h0] at ht
      simp at ht
    simp [hnz]

theorem rp_pending (t : CPU) (x : Nat) : rp (pending_check t) x = rp t x := by
  unfold rp
  rw [pending_check_regs, pending_check_sp]

theorem rp_aux (s : CPU) (lop x : Nat) :
    rp { { s with last_opcode := lop } with vcycles := T433, cpu_cycles := 10 } x = rp s x := by
  unfold rp
  split <;> rfl

/-- Effect of the shared `dad` primitive: HL gets the 16-bit-truncated sum,
CF gets bit 16 of the untruncated sum, and nothing else changes. -/
theorem dad_full (s : CPU) (r : Nat) :
    rp (dad s r) 4 = (rp s 4 + rp s r) % 0x10000 ∧
    (dad s r).cf = (rp s 4 + rp s r).testBit 16 ∧
    (dad s r).sf = s.sf ∧ (dad s r).zf = s.zf ∧ (dad s r).hf = s.hf ∧
    (dad s r).pf = s.pf ∧ (dad s r).regs 0 = s.regs 0 ∧ (dad s r).regs 1 = s.regs 1 ∧
    (dad s r).regs 2 = s.regs 2 ∧ (dad s r).regs 3 = s.regs 3 ∧
    (dad s r).regs 7 = s.regs 7 ∧ (dad s r).sp = s.sp ∧ (dad s r).mem = s.mem := by
  refine ⟨?_, ?_, rfl, rfl, rfl, rfl, rfl, rfl, rfl, rfl, rfl, rfl, rfl⟩
  · have h1 : rp (dad s r) 4
        = ((((hl s + rp s r) >>> 8) % 0x100) <<< 8) ||| (((hl s + rp s r) % 0x100) % 0x100) := rfl
    have h2 : hl s = rp s 4 := rfl
    rw [h1, shl8_lor _ _ (by omega), Nat.shiftRight_eq_div_pow, h2]
    omega
  · have h1 : (dad s r).cf = ((hl s + rp s r) &&& 0x10000 != 0) := rfl
    have h2 : hl s = rp s 4 := rfl
    rw [h1, h2]
    exact and_two_pow_bne _ 16

theorem execute_dad (s : CPU) (op r : Nat)
    (h : op = 0x09 ∧ r = 0 ∨ op = 0x19 ∧ r = 2 ∨ op = 0x29 ∧ r = 4 ∨ op = 0x39 ∧ r = 6) :
    execute s op = pending_check
      (dad { { s with last_opcode := op } with vcycles := T433, cpu_cycles := 10 } r) := by
  obtain ⟨rfl, rfl⟩ | ⟨rfl, rfl⟩ | ⟨rfl, rfl⟩ | ⟨rfl, rfl⟩ := h <;> rfl

/-- C10: for each DAD opcode (0x09 BC, 0x19 DE, 0x29 HL, 0x39 SP) and every
state, executing it sets HL to (HL + rp) mod 2^16 and CF to bit 16 of the
true sum, while SF/ZF/HF/PF, the registers other than H and L, SP and the
memory are unchanged. -/
theorem C10_dad (s : CPU) (op r : Nat)
    (hop : op = 0x09 ∧ r = 0 ∨ op = 0x19 ∧ r = 2 ∨ op = 0x29 ∧ r = 4 ∨ op = 0x39 ∧ r = 6) :
    rp (execute s op) 4 = (rp s 4 + rp s r) % 0x10000 ∧
    (execute s op).cf = (rp s 4 + rp s r).testBit 16 ∧
    (execute s op).sf = s.sf ∧ (execute s op).zf = s.zf ∧
    (execute s op).hf = s.hf ∧ (execute s op).pf = s.pf ∧
    (execute s op).regs 0 = s.regs 0 ∧ (execute s op).regs 1 = s.regs 1 ∧
    (execute s op).regs 2 = s.regs 2 ∧ (execute s op).regs 3 = s.regs 3 ∧
    (execute s op).regs 7 = s.regs 7 ∧
    (execute s op).sp = s.sp ∧ (execute s op).mem = s.mem := by
  rw [execute_dad s op r hop]
  have hd := dad_full { { s with last_opcode := op } with vcycles := T433, cpu_cycles := 10 } r
  refine ⟨?_, ?_, ?_, ?_, ?_, ?_, ?_, ?_, ?_, ?_, ?_, ?_, ?_⟩
  · rw [rp_pending, hd.1, rp_aux, rp_aux]
  · rw [pending_check_cf, hd.2.1, rp_aux, rp_aux]
  · rw [pending_check_sf, hd.2.2.1]
  · rw [pending_check_zf, hd.2.2.2.1]
  · rw [pending_check_hf, hd.2.2.2.2.1]
  · rw [pending_check_pf, hd.2.2.2.2.2.1]
  · rw [pending_check_regs, hd.2.2.2.2.2.2.1]
  · rw [pending_check_regs, hd.2.2.2.2.2.2.2.1]
  · rw [pending_check_regs, hd.2.2.2.2.2.2.2.2.1]
  · rw [pending_check_regs, hd.2.2.2.2.2.2.2.2.2.1]
  · rw [pending_check_regs, hd.2.2.2.2.2.2.2.2.2.2.1]
  · rw [pending_check_sp, hd.2.2.2.2.2.2.2.2.2.2.2.1]
  · rw [pending_check_mem, hd.2.2.2.2.2.2.2.2.2.2.2.2]

theorem C10_dad_witness :
    ((0x09 : Nat) = 0x09 ∧ (0 : Nat) = 0 ∨ (0x09 : Nat) = 0x19 ∧ (0 : Nat) = 2 ∨
     (0x09 : Nat) = 0x29 ∧ (0 : Nat) = 4 ∨ (0x09 : Nat) = 0x39 ∧ (0 : Nat) = 6) ∧
    (rp (execute { cpu0 with regs := fun i => i } 0x09) 4
        = (rp { cpu0 with regs := fun i => i } 4 + rp { cpu0 with regs := fun i => i } 0) % 0x10000 ∧
     (execute { cpu0 with regs := fun i => i } 0x09).cf
        = (rp { cpu0 with regs := fun i => i } 4 + rp { cpu0 with regs := fun i => i } 0).testBit 16 ∧
     (execute { cpu0 with regs := fun i => i } 0x09).sf = ({ cpu0 with regs := fun i => i } : CPU).sf ∧
     (execute { cpu0 with regs := fun i => i } 0x09).zf = ({ cpu0 with regs := fun i => i } : CPU).zf ∧
     (execute { cpu0 with regs := fun i => i } 0x09).hf = ({ cpu0 with regs := fun i => i } : CPU).hf ∧
     (execute { cpu0 with regs := fun i => i } 0x09).pf = ({ cpu0 with regs := fun i => i } : CPU).pf ∧
     (execute { cpu0 with regs := fun i => i } 0x09).regs 0 = ({ cpu0 with regs := fun i => i } : CPU).regs 0 ∧
     (execute { cpu0 with regs := fun i => i } 0x09).regs 1 = ({ cpu0 with regs := fun i => i } : CPU).regs 1 ∧
     (execute { cpu0 with regs := fun i => i } 0x09).regs 2 = ({ cpu0 with regs := fun i => i } : CPU).regs 2 ∧
     (execute { cpu0 with regs := fun i => i } 0x09).regs 3 = ({ cpu0 with regs := fun i => i } : CPU).regs 3 ∧
     (execute { cpu0 with regs := fun i => i } 0x09).regs 7 = ({ cpu0 with regs := fun i => i } : CPU).regs 7 ∧
     (execute { cpu0 with regs := fun i => i } 0x09).sp = ({ cpu0 with regs := fun i => i } : CPU).sp ∧
     (execute { cpu0 with regs := fun i => i } 0x09).mem = ({ cpu0 with regs := fun i => i } : CPU).mem) :=
  ⟨by decide, C10_dad { cpu0 with regs := fun i => i } 0x09 0 (by decide)⟩

set_option maxRecDepth 20000 in
theorem parity_table_evenParity :
    ∀ x, x < 256 → truthy (parity_table.getD x 0) = evenParity x := by
  decide

set_option maxRecDepth 20000 in
theorem hc_idx1 : ∀ a, a < 256 → (a &&& 0x88) >>> 1 = 4 * (a / 8 % 2) + 64 * (a / 128 % 2) := by
  decide

set_option maxRecDepth 20000 in
theorem hc_idx2 : ∀ v, v < 256 → (v &&& 0x88) >>> 2 = 2 * (v / 8 % 2) + 32 * (v / 128 % 2) := by
  decide

set_option maxRecDepth 20000 in
theorem hc_idx3 : ∀ w, w < 512 → (w &&& 0x88) >>> 3 = (w / 8 % 2) + 16 * (w / 128 % 2) := by
  decide

set_option maxRecDepth 20000 in
theorem hc_idx4 : ∀ p, p < 2 → ∀ q, q < 2 → ∀ r, r < 2 → ∀ u, u < 2 → ∀ t, t < 2 → ∀ w, w < 2 →
    ((4 * p + 64 * q) ||| (2 * r + 32 * u) ||| (t + 16 * w)) &&& 7 = 4 * p + 2 * r + t := by
  decide

set_option maxRecDepth 10000 in
/-- C3: the shared ADD-family core `add_im8` (used by ADD/ADC/ADI/ACI) sets
the accumulator to (A + v + c) mod 256, CF to bit 8 of A + v + c, SF to bit 7
of the result, ZF to result = 0, PF to even parity of the result, and HF from
the table `{0,0,1,0,1,0,1,1}` indexed by the bit-3 triple (A3, v3, result3);
and from A = 0x88, B = 0x88, the full ADD B instruction (opcode 0x80) yields
A = 0x10, CF = 1, HF = 1, SF = 0, ZF = 0, PF = 0. -/
theorem C3_add_family (s : CPU) (v c : Nat) (hA : s.regs 7 < 0x100)
    (hv : v < 0x100) (hc : c ≤ 1) :
    ((add_im8 s v c).regs 7 = (s.regs 7 + v + c) % 0x100 ∧
     (add_im8 s v c).cf = (s.regs 7 + v + c).testBit 8 ∧
     (add_im8 s v c).sf = ((s.regs 7 + v + c) % 0x100).testBit 7 ∧
     (add_im8 s v c).zf = decide ((s.regs 7 + v + c) % 0x100 = 0) ∧
     (add_im8 s v c).pf = evenParity ((s.regs 7 + v + c) % 0x100) ∧
     (add_im8 s v c).hf = truthy (half_carry_table.getD
        (4 * bit3 (s.regs 7) + 2 * bit3 v + bit3 ((s.regs 7 + v + c) % 0x100)) 0)) ∧
    (s.regs 7 = 0x88 → s.regs 0 = 0x88 →
      (execute s 0x80).regs 7 = 0x10 ∧ (execute s 0x80).cf = true ∧
      (execute s 0x80).hf = true ∧ (execute s 0x80).sf = false ∧
      (execute s 0x80).zf = false ∧ (execute s 0x80).pf = false) := by
  have hacc : acc s = s.regs 7 := rfl
  constructor
  · refine ⟨?_, ?_, ?_, ?_, ?_, ?_⟩
    · have h1 : (add_im8 s v c).regs 7 = ((acc s + v + c) % 0x100) % 0x100 := rfl
      rw [h1, hacc]
      omega
    · have h1 : (add_im8 s v c).cf = ((acc s + v + c) &&& 0x100 != 0) := rfl
      rw [h1, hacc]
      exact and_two_pow_bne _ 8
    · have h1 : (add_im8 s v c).sf = (((acc s + v + c) % 0x100) &&& 0x80 != 0) := rfl
      rw [h1, hacc]
      exact and_two_pow_bne _ 7
    · have h1 : (add_im8 s v c).zf = (((acc s + v + c) % 0x100) == 0) := rfl
      rw [h1, hacc]
      rfl
    · have h1 : (add_im8 s v c).pf
          = truthy (parity_table.getD ((acc s + v + c) % 0x100) 0) := rfl
      rw [h1, hacc]
      exact parity_table_evenParity _ (by omega)
    · have h1 : (add_im8 s v c).hf = truthy (half_carry_table.getD
          ((((acc s &&& 0x88) >>> 1) ||| ((v &&& 0x88) >>> 2) |||
            (((acc s + v + c) &&& 0x88) >>> 3)) &&& 0x7) 0) := rfl
      rw [h1, hacc]
      rw [hc_idx1 (s.regs 7) hA, hc_idx2 v hv, hc_idx3 (s.regs 7 + v + c) (by omega)]
      rw [hc_idx4 _ (by omega) _ (by omega) _ (by omega) _ (by omega) _ (by omega) _ (by omega)]
      have h3 : (s.regs 7 + v + c) / 8 % 2 = bit3 ((s.regs 7 + v + c) % 0x100) := by
        unfold bit3
        omega
      rw [h3]
      rfl
  · intro h7 h0
    have e : execute s 0x80 = pending_check (h_add_r { s with last_opcode := 0x80 } 0x80) := rfl
    have hb1 : (0x80 : Nat) &&& 7 = 0 := rfl
    have hb2 : (0x80 : Nat) &&& 8 = 0 := rfl
    rw [e, pending_check_regs, pending_check_cf, pending_check_hf, pending_check_sf,
      pending_check_zf, pending_check_pf]
    simp [h_add_r, add, add_im8, acc, reg, set_reg, truthy, hb1, hb2, h7, h0,
      half_carry_table, parity_table]
    all_goals decide

theorem C3_add_family_witness :
    (({ cpu0 with regs := fun i => if i = 7 then 0x88 else if i = 0 then 0x88 else 0 } : CPU).regs 7 < 0x100 ∧
     (0x88 : Nat) < 0x100 ∧ (0 : Nat) ≤ 1 ∧
     ({ cpu0 with regs := fun i => if i = 7 then 0x88 else if i = 0 then 0x88 else 0 } : CPU).regs 7 = 0x88 ∧
     ({ cpu0 with regs := fun i => if i = 7 then 0x88 else if i = 0 then 0x88 else 0 } : CPU).regs 0 = 0x88) ∧
    ((execute { cpu0 with regs := fun i => if i = 7 then 0x88 else if i = 0 then 0x88 else 0 } 0x80).regs 7 = 0x10 ∧
     (execute { cpu0 with regs := fun i => if i = 7 then 0x88 else if i = 0 then 0x88 else 0 } 0x80).cf = true ∧
     (execute { cpu0 with regs := fun i => if i = 7 then 0x88 else if i = 0 then 0x88 else 0 } 0x80).hf = true ∧
     (execute { cpu0 with regs := fun i => if i = 7 then 0x88 else if i = 0 then 0x88 else 0 } 0x80).sf = false ∧
     (execute { cpu0 with regs := fun i => if i = 7 then 0x88 else if i = 0 then 0x88 else 0 } 0x80).zf = false ∧
     (execute { cpu0 with regs := fun i => if i = 7 then 0x88 else if i = 0 then 0x88 else 0 } 0x80).pf = false) :=
  ⟨⟨by decide, by decide, by decide, by decide, by decide⟩,
    (C3_add_family { cpu0 with regs := fun i => if i = 7 then 0x88 else if i = 0 then 0x88 else 0 }
        0x88 0 (by decide) (by decide) (by decide)).2 (by decide) (by decide)⟩
